import Mathlib

/-!
Shallow embedding of `src/cover.py` (BFT cover platform for a gate/door
driven over a vendor cloud API).

The Python module defines a class `BftCover` with mutable attributes; here
the attribute set is the structure `BftCover`, and each method becomes a
function from (and, for mutating methods, to) that structure.  Network
effects are made explicit:

* the result of the telemetry GET inside `update()` is the `FetchOutcome`
  argument (`success` with the four engine fields, `connError` for
  `requests.exceptions.ConnectionError`, `keyError` for a response missing
  one of the four subscripted fields — the `KeyError` raised inside
  `_get_gate_status`);
* the JSON bodies answered by the token, users and command endpoints are
  the `TokenResponse`, `List Automation` and `CommandResponse` arguments;
* each outgoing `requests.post/get/delete` call is mirrored by a
  `*_request` value recording method, URL and the `timeout=` keyword.

Python values that may be `None` are `Option`; a method that can raise is
`Except PyErr`; an attribute that may be unset on the object (Python's
`AttributeError` on read) is an `Option` field that is `none` until the
assignment statement runs.
-/

/-- Python exceptions that the embedded methods can raise. -/
inductive PyErr where
  | keyError
  | attributeError
deriving DecidableEq

/-- Module-level constant `DEFAULT_NAME = "BFT"`. -/
def DEFAULT_NAME : String := "BFT"

/-- `STATE_OPEN` from `homeassistant.const` (the string "open"). -/
def STATE_OPEN : String := "open"

/-- `STATE_CLOSED` from `homeassistant.const` (the string "closed"). -/
def STATE_CLOSED : String := "closed"

/-- Module-level constant `STATE_MOVING = "moving"`. -/
def STATE_MOVING : String := "moving"

/-- Module-level constant `STATE_OFFLINE = "offline"`. -/
def STATE_OFFLINE : String := "offline"

/-- Module-level constant `STATE_STOPPED = "stopped"`. -/
def STATE_STOPPED : String := "stopped"

/-- The module-level dict `STATES_MAP`, read in the source only through
`STATES_MAP.get(key, None)`, hence modelled as `String → Option String`. -/
def STATES_MAP (key : String) : Option String :=
  if key = "open" then some STATE_OPEN
  else if key = "moving" then some STATE_MOVING
  else if key = "closed" then some STATE_CLOSED
  else if key = "stopped" then some STATE_STOPPED
  else none

/-- The four integer fields subscripted out of the diagnosis response by
`_get_gate_status` (lines 253-256). -/
structure Telemetry where
  first_engine_pos_int : Int
  second_engine_pos_int : Int
  first_engine_vel_int : Int
  second_engine_vel_int : Int
deriving DecidableEq

/-- Outcome of the telemetry fetch performed by `update()`:
`success` when `_get_variable("diagnosis")` returns JSON carrying all four
engine fields, `connError` when the GET raises
`requests.exceptions.ConnectionError`, and `keyError` when a field is
missing so the subscript in `_get_gate_status` raises `KeyError` (both
exception types are caught by `update()` itself, lines 236-243). -/
inductive FetchOutcome where
  | success (t : Telemetry)
  | connError
  | keyError
deriving DecidableEq

/-- JSON body answered by a command endpoint; the source reads only its
`"status"` key, which may be absent. -/
structure CommandResponse where
  status : Option String
deriving DecidableEq

/-- JSON body answered by the token endpoint; `get_token` reads only its
`"access_token"` key, which may be absent. -/
structure TokenResponse where
  access_token : Option String
deriving DecidableEq

/-- One entry of `ret.json()["data"]["automations"]` as read by
`get_device_id`: its `"uuid"` and its `["info"]["name"]`. -/
structure Automation where
  uuid : String
  name : String
deriving DecidableEq

/-- The keyword arguments dict built by `setup_platform` and passed to the
constructor; every entry comes from `device_config.get(...)` and may be
`None` except the name, which defaults to `DEFAULT_NAME`. -/
structure Args where
  name : String
  device : Option String
  username : Option String
  password : Option String
  access_token : Option String
deriving DecidableEq

/-- The attribute set of a `BftCover` object.

`watcherActive` stands for `self._unsub_listener_cover is not None` (the
handle itself is an opaque callback); `cancelCount` counts how many times
that handle has been invoked, so that "cancelled exactly once" is
statable.  `_obtained_token` is `none` while the attribute of that name is
unset on the Python object — the constructor's line 87 assigns the
differently named `obtained_token`, and only line 97 (self-acquired-token
path) ever assigns `_obtained_token`. -/
structure BftCover where
  _name : String
  device_name : Option String
  device_id : Option String
  access_token : Option String
  obtained_token : Bool
  _obtained_token : Option Bool
  _username : Option String
  _password : Option String
  _state : Option String
  time_in_state : Option Int
  watcherActive : Bool
  cancelCount : Nat
  _available : Bool
deriving DecidableEq

/-- `BftCover._get_gate_status` (lines 250-278): the ordered guard chain
classifying a telemetry sample.  Each Python `if` body `return`s, so the
chain is an if/else cascade; falling off the end is Python's implicit
`return None`. -/
def _get_gate_status (status : Telemetry) : Option String :=
  if (status.first_engine_pos_int = 100 ∧ status.second_engine_pos_int = 100)
      ∧ (status.first_engine_vel_int = 0 ∧ status.second_engine_vel_int = 0) then
    STATES_MAP "open"
  else if (status.first_engine_vel_int = 0 ∧ status.second_engine_vel_int = 0)
      ∧ (status.first_engine_pos_int > 0 ∨ status.second_engine_pos_int > 0) then
    STATES_MAP "stopped"
  else if (status.first_engine_pos_int = 0 ∧ status.second_engine_pos_int = 0)
      ∧ (status.first_engine_vel_int = 0 ∧ status.second_engine_vel_int = 0) then
    STATES_MAP "closed"
  else if status.first_engine_vel_int > 0 ∨ status.second_engine_vel_int > 0 then
    STATES_MAP "moving"
  else
    none

/-- `BftCover._start_watcher` (lines 196-202): registers the time-change
listener only when no handle is held yet. -/
def BftCover._start_watcher (s : BftCover) : BftCover :=
  if s.watcherActive = false then { s with watcherActive := true } else s

/-- `BftCover.update` (lines 229-248).  The `try` body sets `_state` from
the classifier and then `_available = True`; the two `except` arms
(`ConnectionError`, `KeyError`) set `_state = STATE_OFFLINE` and touch
nothing else.  Afterwards, when the state is not `STATE_MOVING` and a
watcher handle is held, the handle is invoked and cleared. -/
def BftCover.update (s : BftCover) (fetch : FetchOutcome) : BftCover :=
  let s1 :=
    match fetch with
    | FetchOutcome.success t =>
        { s with _state := _get_gate_status t, _available := true }
    | FetchOutcome.connError => { s with _state := some STATE_OFFLINE }
    | FetchOutcome.keyError => { s with _state := some STATE_OFFLINE }
  if s1._state ≠ some STATE_MOVING then
    if s1.watcherActive then
      { s1 with watcherActive := false, cancelCount := s1.cancelCount + 1 }
    else s1
  else s1

/-- `BftCover.get_token` (lines 163-177): returns the `"access_token"`
field of the response, or Python's implicit `None` after logging when the
key is absent. -/
def get_token (resp : TokenResponse) : Option String :=
  match resp.access_token with
  | some t => some t
  | none => none

/-- `BftCover.get_device_id` (lines 178-188): returns the `"uuid"` of the
first automation whose `["info"]["name"]` equals `self.device_name`, or
Python's implicit `None` when no entry matches (a string never equals a
`None` device name). -/
def get_device_id (automations : List Automation) (device_name : Option String) :
    Option String :=
  match automations.find? (fun a => device_name = some a.name) with
  | some a => some a.uuid
  | none => none

/-- `BftCover.__init__` (lines 76-115).  The plain attribute assignments
come first (note line 87 assigns `obtained_token`, without underscore, and
`_obtained_token` stays unset); then the token is acquired when absent
(line 97 is the only assignment to `_obtained_token`); then the device id
is resolved (`device_id` was just set to `None`, so this always runs); then
the first `update()`.  The constructor's `except ConnectionError` /
`except KeyError` arms (lines 104-115) are unreachable from `update()`,
because `update()` catches those same exception types internally and its
remaining statements are attribute assignments; the embedding therefore
ends with the (total) `update` and carries no handler branches. -/
def BftCover.__init__ (args : Args) (tokenResp : TokenResponse)
    (automations : List Automation) (firstFetch : FetchOutcome) : BftCover :=
  let s0 : BftCover :=
    { _name := args.name
      device_name := args.device
      device_id := none
      access_token := args.access_token
      obtained_token := false
      _obtained_token := none
      _username := args.username
      _password := args.password
      _state := none
      time_in_state := none
      watcherActive := false
      cancelCount := 0
      _available := true }
  let s1 :=
    if s0.access_token = none then
      { s0 with access_token := get_token tokenResp, _obtained_token := some true }
    else s0
  let s2 :=
    if s1.device_id = none then
      { s1 with device_id := get_device_id automations s1.device_name }
    else s1
  BftCover.update s2 firstFetch

/-- `BftCover.__del__` (lines 117-121): reads `self._obtained_token`,
which raises `AttributeError` when that attribute was never assigned; when
it is `True` and a token is held, `remove_token()` runs (the returned
`Bool` records whether it did). -/
def BftCover.__del__ (s : BftCover) : Except PyErr Bool :=
  match s._obtained_token with
  | none => Except.error PyErr.attributeError
  | some v =>
      if v = true then
        if s.access_token ≠ none then Except.ok true else Except.ok false
      else Except.ok false

/-- `BftCover.close_cover` (lines 208-213): guarded by
`self._state not in ["close"]`; when the guard passes, the command is sent,
the watcher started, and `ret.get("status") == "done"` returned; when it
fails, Python falls through and returns `None`.  The triple is (object
after the call, whether the network command was sent, value returned or
exception raised). -/
def BftCover.close_cover (s : BftCover) (resp : CommandResponse) :
    BftCover × Bool × Except PyErr (Option Bool) :=
  if s._state ≠ some "close" then
    let s' := BftCover._start_watcher s
    (s', true, Except.ok (some (decide (resp.status = some "done"))))
  else
    (s, false, Except.ok none)

/-- `BftCover.open_cover` (lines 215-220): same shape as `close_cover`,
guarded by `self._state not in ["open"]`. -/
def BftCover.open_cover (s : BftCover) (resp : CommandResponse) :
    BftCover × Bool × Except PyErr (Option Bool) :=
  if s._state ≠ some "open" then
    let s' := BftCover._start_watcher s
    (s', true, Except.ok (some (decide (resp.status = some "done"))))
  else
    (s, false, Except.ok none)

/-- `BftCover.stop_cover` (lines 222-227): guarded by
`self._state not in ["stopped"]`; unlike its siblings it subscripts
`ret["status"]` directly, so a response without that key raises `KeyError`
(after the watcher has already been started). -/
def BftCover.stop_cover (s : BftCover) (resp : CommandResponse) :
    BftCover × Bool × Except PyErr (Option Bool) :=
  if s._state ≠ some "stopped" then
    let s' := BftCover._start_watcher s
    match resp.status with
    | some v => (s', true, Except.ok (some (decide (v = "done"))))
    | none => (s', true, Except.error PyErr.keyError)
  else
    (s, false, Except.ok none)

/-- `self.particle_url` (line 78). -/
def particle_url : String := "https://ucontrol-api.bft-automation.com"

/-- `self.dispatcher_api_url` (lines 79-81). -/
def dispatcher_api_url : String :=
  "https://ucontrol-dispatcher.bft-automation.com/automations"

/-- An outgoing HTTP call as issued through `requests`, keeping the pieces
the claims are about: verb, URL, and the `timeout=` keyword argument. -/
structure HttpRequest where
  method : String
  url : String
  timeout : Nat
deriving DecidableEq

/-- The `requests.post` call of `get_token` (line 171). -/
def get_token_request : HttpRequest :=
  { method := "POST", url := particle_url ++ "/oauth/token", timeout := 10 }

/-- The `requests.get` call of `get_device_id` (line 183). -/
def get_device_id_request (access_token : String) : HttpRequest :=
  { method := "GET"
    url := particle_url ++ "/api/v1/users/?access_token=" ++ access_token
    timeout := 10 }

/-- The `requests.delete` call of `remove_token` (line 193). -/
def remove_token_request (access_token : String) : HttpRequest :=
  { method := "DELETE"
    url := particle_url ++ "/v1/access_tokens/" ++ access_token
    timeout := 10 }

/-- The `requests.get` call of `_get_variable` (line 285). -/
def _get_variable_request (device_id v : String) : HttpRequest :=
  { method := "GET"
    url := dispatcher_api_url ++ "/" ++ device_id ++ "/execute/" ++ v
    timeout := 10 }

/-- The `requests.get` call of `_put_command` (line 293). -/
def _put_command_request (device_id func : String) : HttpRequest :=
  { method := "GET"
    url := dispatcher_api_url ++ "/" ++ device_id ++ "/execute/" ++ func
    timeout := 10 }

/-- A concrete object in a healthy post-construction configuration, used
to instantiate theorems. -/
def exampleOnlineCover : BftCover :=
  { _name := "BFT"
    device_name := some "front gate"
    device_id := some "uuid-1"
    access_token := some "tok"
    obtained_token := false
    _obtained_token := none
    _username := some "u"
    _password := some "p"
    _state := some STATE_OPEN
    time_in_state := none
    watcherActive := false
    cancelCount := 0
    _available := true }

/-- `exampleOnlineCover` with an active watcher while the gate moves. -/
def watcherOnCover : BftCover :=
  { exampleOnlineCover with watcherActive := true, _state := some STATE_MOVING }

/-- `exampleOnlineCover` observed closed. -/
def closedStateCover : BftCover :=
  { exampleOnlineCover with _state := some STATE_CLOSED }

/-- `exampleOnlineCover` before any state was established. -/
def noneStateCover : BftCover :=
  { exampleOnlineCover with _state := none }

/-- Constructor arguments with the access token supplied by configuration. -/
def suppliedTokenArgs : Args :=
  { name := "gate"
    device := some "front gate"
    username := some "u"
    password := some "p"
    access_token := some "tok" }

/-- Values of `STATES_MAP` at the four keys the classifier uses. -/
theorem STATES_MAP_values :
    STATES_MAP "open" = some STATE_OPEN ∧ STATES_MAP "stopped" = some STATE_STOPPED ∧
    STATES_MAP "closed" = some STATE_CLOSED ∧ STATES_MAP "moving" = some STATE_MOVING := by
  refine ⟨rfl, ?_, ?_, ?_⟩ <;> decide

/-- C1: the claim says a `TransportError` during `update()` sets the state
to Offline AND sets `available` to false, without propagating.  At a
concrete online cover, a connection error indeed yields state Offline and
no exception, but `_available` is left at `true`: the `except` arm of
`update()` (lines 236-238) never assigns `_available`. -/
theorem c1_update_conn_error_leaves_available_true :
    (BftCover.update exampleOnlineCover FetchOutcome.connError)._state
        = some STATE_OFFLINE ∧
    (BftCover.update exampleOnlineCover FetchOutcome.connError)._available = true := by
  decide

/-- C2: the claim says `close()` when the state is already Closed is a
no-op.  At a concrete cover whose state is `STATE_CLOSED` ("closed"), the
guard `self._state not in ["close"]` passes, so the command IS sent, the
watcher IS started, and the call returns the command result. -/
theorem c2_close_when_closed_sends_command :
    (BftCover.close_cover closedStateCover { status := some "done" }).2.1 = true ∧
    (BftCover.close_cover closedStateCover { status := some "done" }).1.watcherActive
        = true ∧
    (BftCover.close_cover closedStateCover { status := some "done" }).2.2
        = Except.ok (some true) := by
  exact ⟨rfl, rfl, rfl⟩

/-- C3: on any telemetry sample whose positions and velocities are all
non-negative, the classifier returns through one of guards 1-4 (Open,
Stopped, Closed or Moving) and never reaches the fall-through no-guard
outcome. -/
theorem c3_classifier_total_on_nonneg (t : Telemetry)
    (hp1 : 0 ≤ t.first_engine_pos_int) (hp2 : 0 ≤ t.second_engine_pos_int)
    (hv1 : 0 ≤ t.first_engine_vel_int) (hv2 : 0 ≤ t.second_engine_vel_int) :
    _get_gate_status t = some STATE_OPEN ∨ _get_gate_status t = some STATE_STOPPED ∨
    _get_gate_status t = some STATE_CLOSED ∨ _get_gate_status t = some STATE_MOVING := by
  unfold _get_gate_status
  split_ifs with h1 h2 h3 h4
  · exact Or.inl STATES_MAP_values.1
  · exact Or.inr (Or.inl STATES_MAP_values.2.1)
  · exact Or.inr (Or.inr (Or.inl STATES_MAP_values.2.2.1))
  · exact Or.inr (Or.inr (Or.inr STATES_MAP_values.2.2.2))
  · exact absurd trivial (by omega)

/-- C3 witness: the theorem applied at the all-zero sample. -/
theorem c3_witness :
    _get_gate_status ⟨0, 0, 0, 0⟩ = some STATE_OPEN ∨
    _get_gate_status ⟨0, 0, 0, 0⟩ = some STATE_STOPPED ∨
    _get_gate_status ⟨0, 0, 0, 0⟩ = some STATE_CLOSED ∨
    _get_gate_status ⟨0, 0, 0, 0⟩ = some STATE_MOVING :=
  c3_classifier_total_on_nonneg ⟨0, 0, 0, 0⟩ (by decide) (by decide) (by decide) (by decide)

/-- C4: with both velocities zero and at least one position positive, the
classifier returns Stopped — unless both positions are exactly 100, in
which case the earlier Open guard fires (second conjunct). -/
theorem c4_stationary_nonzero_is_stopped (t : Telemetry)
    (hv1 : t.first_engine_vel_int = 0) (hv2 : t.second_engine_vel_int = 0)
    (hp : t.first_engine_pos_int > 0 ∨ t.second_engine_pos_int > 0)
    (hne : ¬(t.first_engine_pos_int = 100 ∧ t.second_engine_pos_int = 100)) :
    _get_gate_status t = some STATE_STOPPED ∧
    _get_gate_status ⟨100, 100, 0, 0⟩ = some STATE_OPEN := by
  refine ⟨?_, by decide⟩
  unfold _get_gate_status
  split_ifs with h1 h2 h3 h4
  all_goals first
    | exact STATES_MAP_values.2.1
    | exact absurd h1.1 hne
    | exact absurd ⟨⟨hv1, hv2⟩, hp⟩ h2

/-- C4 witness: the theorem applied at the asymmetric sample
pos1 = 0, pos2 = 5, both velocities zero. -/
theorem c4_witness :
    _get_gate_status ⟨0, 5, 0, 0⟩ = some STATE_STOPPED ∧
    _get_gate_status ⟨100, 100, 0, 0⟩ = some STATE_OPEN :=
  c4_stationary_nonzero_is_stopped ⟨0, 5, 0, 0⟩ rfl rfl (by decide) (by decide)

/-- C5: the all-zero sample classifies as Closed, and Closed is returned
at no other sample — guard 3 is reachable exactly at the all-zero point. -/
theorem c5_closed_exactly_at_all_zero :
    _get_gate_status ⟨0, 0, 0, 0⟩ = some STATE_CLOSED ∧
    ∀ t : Telemetry, _get_gate_status t = some STATE_CLOSED →
      t = ⟨0, 0, 0, 0⟩ := by
  refine ⟨by decide, ?_⟩
  intro t h
  cases t with
  | mk p1 p2 v1 v2 =>
    unfold _get_gate_status at h
    split_ifs at h with h1 h2 h3 h4
    all_goals first
      | exact absurd h (by decide)
      | (dsimp only at h3
         simp only [Telemetry.mk.injEq]
         omega)

/-- C5 witness: the uniqueness direction applied at the all-zero sample,
its hypothesis discharged by evaluation. -/
theorem c5_witness :
    _get_gate_status ⟨0, 0, 0, 0⟩ = some STATE_CLOSED ∧
    (⟨0, 0, 0, 0⟩ : Telemetry) = ⟨0, 0, 0, 0⟩ :=
  ⟨by decide, c5_closed_exactly_at_all_zero.2 ⟨0, 0, 0, 0⟩ (by decide)⟩

/-- C6: after any `update()`, the watcher is active only if the new state
is Moving (and only if it was active before — `update()` never starts it);
when the new state is not Moving the watcher ends inactive and the
cancellation handle has been invoked exactly once if a watcher was active,
zero times otherwise; an update yielding Moving leaves an active watcher
active; and an update from an inactive watcher never invokes the handle,
so repeated non-moving polls are idempotent. -/
theorem c6_watcher_active_only_if_moving (s : BftCover) (r : FetchOutcome) :
    ((BftCover.update s r).watcherActive = true →
        (BftCover.update s r)._state = some STATE_MOVING ∧ s.watcherActive = true) ∧
    ((BftCover.update s r)._state ≠ some STATE_MOVING →
        (BftCover.update s r).watcherActive = false ∧
        (BftCover.update s r).cancelCount
          = s.cancelCount + (if s.watcherActive then 1 else 0)) ∧
    (s.watcherActive = true → (BftCover.update s r)._state = some STATE_MOVING →
        (BftCover.update s r).watcherActive = true) ∧
    (s.watcherActive = false → (BftCover.update s r).cancelCount = s.cancelCount) := by
  cases r <;>
    (unfold BftCover.update
     dsimp only
     split_ifs <;> simp_all)

/-- C6 witness: a cover whose watcher is active, polled while the gate has
settled (connection error → Offline): the watcher deactivates and its
handle is invoked exactly once. -/
theorem c6_witness :
    (BftCover.update watcherOnCover FetchOutcome.connError).watcherActive = false ∧
    (BftCover.update watcherOnCover FetchOutcome.connError).cancelCount
      = watcherOnCover.cancelCount + 1 := by
  have h := (c6_watcher_active_only_if_moving watcherOnCover FetchOutcome.connError).2.1
    (by decide)
  exact ⟨h.1, by simpa using h.2⟩

/-- C7: the claim says a construction whose first `update()` fails with a
transport or lookup error marks the entity Offline AND unavailable while
construction succeeds.  Construction does succeed (the embedding is total
because `update()` catches both exception types itself — the constructor's
own handlers are dead code) and the state is Offline, but `_available`
remains `true` on both failure kinds: nothing on this path ever assigns
`_available = False`. -/
theorem c7_init_failing_first_update_offline_but_available :
    (BftCover.__init__ suppliedTokenArgs ⟨none⟩ [] FetchOutcome.connError)._state
        = some STATE_OFFLINE ∧
    (BftCover.__init__ suppliedTokenArgs ⟨none⟩ [] FetchOutcome.connError)._available
        = true ∧
    (BftCover.__init__ suppliedTokenArgs ⟨none⟩ [] FetchOutcome.keyError)._state
        = some STATE_OFFLINE ∧
    (BftCover.__init__ suppliedTokenArgs ⟨none⟩ [] FetchOutcome.keyError)._available
        = true := by
  exact ⟨rfl, rfl, rfl, rfl⟩

/-- `update()` never assigns the `_obtained_token` attribute. -/
theorem update_preserves_obtained_token (s : BftCover) (r : FetchOutcome) :
    (BftCover.update s r)._obtained_token = s._obtained_token := by
  cases r <;>
    (unfold BftCover.update
     dsimp only
     split_ifs <;> rfl)

/-- C8: when the access token is supplied in the configuration (rather
than self-acquired), the constructor leaves the `_obtained_token`
attribute unset — line 87 assigns the differently spelled
`obtained_token` — so `__del__`, which reads `self._obtained_token`,
raises `AttributeError`. -/
theorem c8_del_raises_attribute_error_when_token_supplied (args : Args)
    (tokenResp : TokenResponse) (automations : List Automation)
    (firstFetch : FetchOutcome) (tok : String)
    (h : args.access_token = some tok) :
    BftCover.__del__ (BftCover.__init__ args tokenResp automations firstFetch)
      = Except.error PyErr.attributeError := by
  have hobt : (BftCover.__init__ args tokenResp automations firstFetch)._obtained_token
      = none := by
    unfold BftCover.__init__
    dsimp only
    rw [update_preserves_obtained_token]
    simp [h]
  unfold BftCover.__del__
  rw [hobt]

/-- C8 witness: the theorem at a concrete construction with a supplied
token. -/
theorem c8_witness :
    BftCover.__del__ (BftCover.__init__ suppliedTokenArgs ⟨none⟩ [] FetchOutcome.connError)
      = Except.error PyErr.attributeError :=
  c8_del_raises_attribute_error_when_token_supplied suppliedTokenArgs ⟨none⟩ []
    FetchOutcome.connError "tok" rfl

/-- C9: when a command reply carries no `"status"` key and the guards pass
(the command is actually sent), `open_cover` and `close_cover` return
`False` — they read the key with `.get` — while `stop_cover` raises
`KeyError` — it subscripts `ret["status"]` directly. -/
theorem c9_missing_status_open_close_false_stop_keyerror (s : BftCover)
    (resp : CommandResponse) (hresp : resp.status = none)
    (ho : s._state ≠ some "open") (hc : s._state ≠ some "close")
    (hst : s._state ≠ some "stopped") :
    (BftCover.open_cover s resp).2.2 = Except.ok (some false) ∧
    (BftCover.close_cover s resp).2.2 = Except.ok (some false) ∧
    (BftCover.stop_cover s resp).2.2 = Except.error PyErr.keyError := by
  unfold BftCover.open_cover BftCover.close_cover BftCover.stop_cover
  simp [ho, hc, hst, hresp]

/-- C9 witness: the theorem at a cover with no established state and an
empty command reply. -/
theorem c9_witness :
    (BftCover.open_cover noneStateCover ⟨none⟩).2.2 = Except.ok (some false) ∧
    (BftCover.close_cover noneStateCover ⟨none⟩).2.2 = Except.ok (some false) ∧
    (BftCover.stop_cover noneStateCover ⟨none⟩).2.2 = Except.error PyErr.keyError :=
  c9_missing_status_open_close_false_stop_keyerror noneStateCover ⟨none⟩ rfl
    (by decide) (by decide) (by decide)

/-- C10: every outgoing network call of the module — token acquisition,
device-id resolution, token revocation, telemetry fetch and command
send — is issued with `timeout=10`. -/
theorem c10_all_network_calls_timeout_ten (tok device_id v func : String) :
    get_token_request.timeout = 10 ∧
    (get_device_id_request tok).timeout = 10 ∧
    (remove_token_request tok).timeout = 10 ∧
    (_get_variable_request device_id v).timeout = 10 ∧
    (_put_command_request device_id func).timeout = 10 :=
  ⟨rfl, rfl, rfl, rfl, rfl⟩

/-- C10 witness: the theorem at concrete token, device id, variable and
command names. -/
theorem c10_witness :
    get_token_request.timeout = 10 ∧
    (get_device_id_request "tok").timeout = 10 ∧
    (remove_token_request "tok").timeout = 10 ∧
    (_get_variable_request "uuid-1" "diagnosis").timeout = 10 ∧
    (_put_command_request "uuid-1" "open").timeout = 10 :=
  c10_all_network_calls_timeout_ten "tok" "uuid-1" "diagnosis" "open"
